import Mathlib

/-!
# CMSIS++ RTOS API (`cmsis-plus/rtos/os.h`): verification development

Shallow embedding of the inline and template code of `os.h` and of the
constants and enumerations it declares, followed by the properties proved
about them.

Conventions.
* Unsigned machine integers are natural numbers; arithmetic in an unsigned
  type of `w` bits is reduced modulo `2 ^ w` where the source computes in
  that type.
* State touched by a function is passed in and returned explicitly.
-/

namespace os.cmsis.rtos

/-! ## `Systick_clock` -/

namespace Systick_clock

/-- Source: `static constexpr uint32_t frequency_hz = 1000;` -/
def frequency_hz : Nat := 1000

/-- Source: `Systick_clock::ticks_cast<Rep_T>` for an unsigned `Rep_T` of `w` bits
whose rank is at least that of `int` (no integer promotion), so that the
product, the sum and the quotient are computed in `Rep_T`, modulo `2 ^ w`:

    return (uint32_t) ((((microsec) * ((Rep_T) frequency_hz))
        + (Rep_T) 999999ul) / (Rep_T) 1000000ul);
-/
def ticks_cast (w : Nat) (microsec : Nat) : Nat :=
  ((((microsec * (frequency_hz % 2 ^ w)) % 2 ^ w + 999999 % 2 ^ w) % 2 ^ w)
      / (1000000 % 2 ^ w)) % 2 ^ 32

end Systick_clock

/-! ## Result codes -/

/-- Source: `using result_t = enum class result : uint32_t`: a result is a 32-bit
unsigned value. -/
abbrev result_t := Nat

namespace result

/-- Source: `ok = 0`: function completed; no error or event occurred. -/
def ok : result_t := 0
/-- Source: `event_signal = 0x08` -/
def event_signal : result_t := 0x08
/-- Source: `event_message = 0x10` -/
def event_message : result_t := 0x10
/-- Source: `event_mail = 0x20` -/
def event_mail : result_t := 0x20
/-- Source: `event_timeout = 0x40` -/
def event_timeout : result_t := 0x40
/-- Source: `error_parameter = 0x80` -/
def error_parameter : result_t := 0x80
/-- Source: `error_resource = 0x81` -/
def error_resource : result_t := 0x81
/-- Source: `error_timeout_resource = 0xC1` -/
def error_timeout_resource : result_t := 0xC1
/-- Source: `error_isr = 0x82` -/
def error_isr : result_t := 0x82
/-- Source: `error_isr_recursive = 0x83` -/
def error_isr_recursive : result_t := 0x83
/-- Source: `error_priority = 0x84` -/
def error_priority : result_t := 0x84
/-- Source: `error_no_memory = 0x85` -/
def error_no_memory : result_t := 0x85
/-- Source: `error_value = 0x86` -/
def error_value : result_t := 0x86
/-- Source: `error_os = 0xFF` -/
def error_os : result_t := 0xFF
/-- Source: `eagain = error_resource` -/
def eagain : result_t := error_resource
/-- Source: `etimedout = error_timeout_resource` -/
def etimedout : result_t := error_timeout_resource
/-- Source: `einval = 0x100` -/
def einval : result_t := 0x100
/-- Source: `eintr = 0x101` -/
def eintr : result_t := 0x101
/-- Source: `eoverflow = 0x102` -/
def eoverflow : result_t := 0x102
/-- Source: `reserved = 0x7FFFFFFF` -/
def reserved : result_t := 0x7FFFFFFF

/-- The identifiers declared in the body of `enum class result`, in source
order. -/
inductive Name
  | ok | event_signal | event_message | event_mail | event_timeout
  | error_parameter | error_resource | error_timeout_resource
  | error_isr | error_isr_recursive | error_priority | error_no_memory
  | error_value | error_os | eagain | etimedout
  | einval | eintr | eoverflow | reserved
  deriving DecidableEq, Repr

/-- The value an enumerator denotes. -/
def Name.value : Name → result_t
  | .ok => result.ok
  | .event_signal => result.event_signal
  | .event_message => result.event_message
  | .event_mail => result.event_mail
  | .event_timeout => result.event_timeout
  | .error_parameter => result.error_parameter
  | .error_resource => result.error_resource
  | .error_timeout_resource => result.error_timeout_resource
  | .error_isr => result.error_isr
  | .error_isr_recursive => result.error_isr_recursive
  | .error_priority => result.error_priority
  | .error_no_memory => result.error_no_memory
  | .error_value => result.error_value
  | .error_os => result.error_os
  | .eagain => result.eagain
  | .etimedout => result.etimedout
  | .einval => result.einval
  | .eintr => result.eintr
  | .eoverflow => result.eoverflow
  | .reserved => result.reserved

/-- The sixteen result names of the data model (section 3 of the
specification, aliases included). -/
def Name.documented : List Name :=
  [.ok, .event_timeout, .error_parameter, .error_resource, .eagain,
   .error_timeout_resource, .etimedout, .error_isr, .error_isr_recursive,
   .error_priority, .error_no_memory, .error_value, .error_os,
   .einval, .eintr, .eoverflow]

end result

/-! ## Thread priorities -/

namespace thread

/-- Source: `using priority_t = uint8_t;` -/
abbrev priority_t := Nat

namespace priority

/-- Source: `none = 0` -/
def none : priority_t := 0
/-- Source: `idle = 1`: priority idle (lowest) -/
def idle : priority_t := 1
/-- Source: `low = 0x40` -/
def low : priority_t := 0x40
/-- Source: `below_normal = 0x60` -/
def below_normal : priority_t := 0x60
/-- Source: `normal = 0x80`: priority normal (default) -/
def normal : priority_t := 0x80
/-- Source: `above_normal = 0xA0` -/
def above_normal : priority_t := 0xA0
/-- Source: `high = 0xC0` -/
def high : priority_t := 0xC0
/-- Source: `realtime = 0xE0`: priority realtime (highest) -/
def realtime : priority_t := 0xE0
/-- Source: `max = 0xFF` -/
def max : priority_t := 0xFF

end priority

/-- Source: `enum class state : uint8_t` -/
inductive state
  | inactive | ready | running | waiting
  deriving DecidableEq, Repr

end thread

/-! ## Scoped objects -/

/-- Construction of a scoped object, or destruction of the most recently
constructed one still alive (automatic storage: last in, first out). -/
inductive ScopeEvent
  | construct
  | destroy
  deriving DecidableEq, Repr

/-- Run a sequence of scope events over the state `σ` touched by the
constructor and the destructor, keeping the live objects on a stack (most
recent first).  `none` when a destruction finds no live object. -/
def run_scopes {σ Obj : Type} (ctor : σ → Obj × σ) (dtor : Obj → σ → σ) :
    List ScopeEvent → σ × List Obj → Option (σ × List Obj)
  | [], st => some st
  | .construct :: evs, (s, live) =>
      run_scopes ctor dtor evs ((ctor s).2, (ctor s).1 :: live)
  | .destroy :: _, (_, []) => Option.none
  | .destroy :: evs, (s, o :: live) => run_scopes ctor dtor evs (dtor o s, live)

/-- Shape of the state during nested sections: with no saved value the state
is the initial one; otherwise it is the raised form of the most recently
saved value, and the saved values below are nested in the same way. -/
def nest_inv {σ : Type} (raise : σ → σ) (s0 : σ) : σ → List σ → Prop
  | s, [] => s = s0
  | s, x :: rest => s = raise x ∧ nest_inv raise s0 x rest

/-! ## Scheduler critical section -/

namespace scheduler

/-- Source: `using status_t = bool;` -/
abbrev status_t := Bool

/-- Modelled from the spec: `scheduler::lock` is only declared in `os.h`
("Lock the scheduler. Returns the previous status of the scheduler").  The
scheduler state is its status; `locked` is the status value that stands for
a locked scheduler.  Returns the previous status and the new state. -/
def lock (locked : status_t) (cur : status_t) : status_t × status_t :=
  (cur, locked)

/-- Modelled from the spec: `scheduler::unlock` is only declared in `os.h`
("status: the new status of the scheduler. Returns the previous status of
the scheduler").  Returns the previous status and the new state. -/
def unlock (status : status_t) (cur : status_t) : status_t × status_t :=
  (cur, status)

/-- Source: `class Critical_section`: `const status_t status_;` -/
structure Critical_section where
  status_ : status_t
  deriving DecidableEq, Repr

/-- Source: `Critical_section::Critical_section () : status_ (lock ()) { ; }` over
the state `σ` that `lock` reads and updates. -/
def Critical_section.ctor {σ : Type} (lock : σ → status_t × σ) (s : σ) :
    Critical_section × σ :=
  ({ status_ := (lock s).1 }, (lock s).2)

/-- Source: `Critical_section::~Critical_section () { unlock (status_); }`; the
value returned by `unlock` is discarded. -/
def Critical_section.dtor {σ : Type} (unlock : status_t → σ → status_t × σ)
    (self : Critical_section) (s : σ) : σ :=
  (unlock self.status_ s).2

end scheduler

/-! ## IRQ critical section -/

namespace critical

/-- Source: `using status_t = uint32_t;` -/
abbrev status_t := Nat

/-- Modelled from the spec: `critical::enter` is only declared in `os.h`
(the body belongs to the port layer).  The CPU state is the interrupt
priority mask; entering returns the current mask and raises it, `raise`
being the port's raising of a mask.  Returns the saved mask and the new
state. -/
def enter (raise : status_t → status_t) (mask : status_t) : status_t × status_t :=
  (mask, raise mask)

/-- Modelled from the spec: `critical::exit` is only declared in `os.h`;
exiting sets the mask to the given status.  Only the new state is modelled,
the `status_t` it returns is discarded by its caller. -/
def exit (status : status_t) (_mask : status_t) : status_t :=
  status

end critical

/-- Source: `class Critical_section_irq`: `const critical::status_t status_;` -/
structure Critical_section_irq where
  status_ : critical.status_t
  deriving DecidableEq, Repr

/-- Source: `Critical_section_irq::Critical_section_irq () :
status_ (critical::enter ()) { ; }` over the state `σ` that `enter` reads
and updates. -/
def Critical_section_irq.ctor {σ : Type} (enter : σ → critical.status_t × σ)
    (cpu : σ) : Critical_section_irq × σ :=
  ({ status_ := (enter cpu).1 }, (enter cpu).2)

/-- Source: `Critical_section_irq::~Critical_section_irq ()
{ critical::exit (status_); }` -/
def Critical_section_irq.dtor {σ : Type} (exit : critical.status_t → σ → σ)
    (self : Critical_section_irq) (cpu : σ) : σ :=
  exit self.status_ cpu

/-! ## Named objects -/

/-- Source: `class Named_object`: `const char* const name_;` (a null pointer is
`none`). -/
structure Named_object where
  name_ : Option String
  deriving DecidableEq, Repr

/-- Source: `Named_object::get_name`: `return name_;` -/
def Named_object.get_name (self : Named_object) : Option String :=
  self.name_

/-! ## Semaphore attributes -/

namespace semaphore

/-- Source: `using count_t = int32_t;` -/
abbrev count_t := Int

/-- Source: `constexpr count_t max_count_value = 0x7FFFFFFF;` -/
def max_count_value : count_t := 0x7FFFFFFF

/-- Source: `class Attributes : public Named_object` with `count_t initial_count_;`
and `count_t max_count_;`. -/
structure Attributes extends Named_object where
  initial_count_ : count_t
  max_count_ : count_t
  deriving DecidableEq, Repr

/-- Source: `Attributes::Attributes (const char* name) : Named_object (name)`
with body `initial_count_ = 0; max_count_ = max_count_value;`.  The
constructor of the base class is not in `os.h`: `base` is the base
sub-object it leaves. -/
def Attributes.ctor (base : Named_object) : Attributes :=
  { toNamed_object := base, initial_count_ := 0, max_count_ := max_count_value }

/-- Source: `Attributes::get_intial_count (count_t* initial_count) const`.  The
pointer argument is `none` when null, else `some v` with `v` the content of
the cell it points to; the result carries the content after the call. -/
def Attributes.get_intial_count (self : Attributes) (initial_count : Option count_t) :
    result_t × Option count_t :=
  match initial_count with
  | some _ => (result.ok, some self.initial_count_)
  | Option.none => (result.ok, Option.none)

/-- Source: `Attributes::set_intial_count (count_t initial_count)` -/
def Attributes.set_intial_count (self : Attributes) (initial_count : count_t) :
    result_t × Attributes :=
  (result.ok, { self with initial_count_ := initial_count })

/-- Source: `Attributes::get_max_count (count_t* max_count) const`; the pointer is
modelled as in `get_intial_count`. -/
def Attributes.get_max_count (self : Attributes) (max_count : Option count_t) :
    result_t × Option count_t :=
  match max_count with
  | some _ => (result.ok, some self.max_count_)
  | Option.none => (result.ok, Option.none)

/-- Source: `Attributes::set_max_count (count_t max_count)` -/
def Attributes.set_max_count (self : Attributes) (max_count : count_t) :
    result_t × Attributes :=
  (result.ok, { self with max_count_ := max_count })

/-- Source: `class Binary_attributes : public Attributes` (no field of its own). -/
structure Binary_attributes extends Attributes
  deriving DecidableEq, Repr

/-- Source: `Binary_attributes::Binary_attributes (const char* name) :
Attributes (name)` with body `initial_count_ = 0; max_count_ = 1;`. -/
def Binary_attributes.ctor (base : Named_object) : Binary_attributes :=
  { toAttributes := { Attributes.ctor base with initial_count_ := 0, max_count_ := 1 } }

end semaphore

/-! ## Kernel objects and their comparison -/

/-- The address of an object of class `T`: the value of `this` inside a
member function, and of `&rhs` for a reference argument. -/
structure Ptr (T : Type) where
  addr : Nat
  deriving DecidableEq, Repr

namespace timer

/-- Source: `enum class type : uint8_t` -/
inductive type
  | once | periodic
  deriving DecidableEq, Repr

end timer

namespace mutex

/-- Source: `enum class protocol : uint8_t` -/
inductive protocol
  | none | inherit | protect
  deriving DecidableEq, Repr

/-- Source: `enum class robustness : uint8_t` -/
inductive robustness
  | stalled | robust
  deriving DecidableEq, Repr

/-- Source: `enum class type : uint8_t` -/
inductive type
  | normal | errorcheck | recursive
  deriving DecidableEq, Repr

/-- Source: `using count_t = uint32_t;` -/
abbrev count_t := Nat

end mutex

/-- Source: `class Thread : public Named_object`, its data members (pointers and
function pointers are addresses). -/
structure Thread extends Named_object where
  stack_addr_ : Nat
  stack_size_bytes_ : Nat
  func_ : Nat
  func_args_ : Nat
  state_ : thread.state
  prio_ : thread.priority_t
  wakeup_reason_ : result_t
  deriving DecidableEq, Repr

/-- Source: `Thread::operator== (const Thread& rhs) const`: `return this == &rhs;` -/
def Thread.operator_eq (self rhs : Ptr Thread) : Bool :=
  self.addr == rhs.addr

/-- Source: `class Timer : public Named_object`, its data members. -/
structure Timer extends Named_object where
  func_ : Nat
  func_args_ : Nat
  type_ : timer.type
  deriving DecidableEq, Repr

/-- Source: `Timer::operator== (const Timer& rhs) const`: `return this == &rhs;` -/
def Timer.operator_eq (self rhs : Ptr Timer) : Bool :=
  self.addr == rhs.addr

/-- Source: `class Mutex : public Named_object`, its data members (`owner_` is null
or the address of a thread). -/
structure Mutex extends Named_object where
  owner_ : Option (Ptr Thread)
  count_ : mutex.count_t
  prio_ceiling_ : thread.priority_t
  type_ : mutex.type
  protocol_ : mutex.protocol
  robustness_ : mutex.robustness
  deriving DecidableEq, Repr

/-- Source: `Mutex::operator== (const Mutex& rhs) const`: `return this == &rhs;` -/
def Mutex.operator_eq (self rhs : Ptr Mutex) : Bool :=
  self.addr == rhs.addr

/-- Source: `class Condition_variable : public Named_object` (no data member of its
own). -/
structure Condition_variable extends Named_object
  deriving DecidableEq, Repr

/-- Source: `Condition_variable::operator== (const Condition_variable& rhs) const`:
`return this == &rhs;` -/
def Condition_variable.operator_eq (self rhs : Ptr Condition_variable) : Bool :=
  self.addr == rhs.addr

/-- Source: `class Semaphore : public Named_object`, its data members.  The type
`impl::Prioritised_list` of `list_` is declared outside `os.h`; the list is
represented by the addresses of the waiting threads. -/
structure Semaphore extends Named_object where
  list_ : List (Ptr Thread)
  count_ : semaphore.count_t
  max_count_ : semaphore.count_t
  deriving DecidableEq, Repr

/-- Source: `Semaphore::operator== (const Semaphore& rhs) const`:
`return this == &rhs;` -/
def Semaphore.operator_eq (self rhs : Ptr Semaphore) : Bool :=
  self.addr == rhs.addr

namespace pool

/-- Source: `using size_t = uint16_t;` -/
abbrev size_t := Nat

end pool

/-- Source: `class Pool : public Named_object`, its data members. -/
structure Pool extends Named_object where
  pool_addr_ : Nat
  items_ : pool.size_t
  item_size_bytes_ : pool.size_t
  deriving DecidableEq, Repr

/-- Source: `Pool::operator== (const Pool& rhs) const`: `return this == &rhs;` -/
def Pool.operator_eq (self rhs : Ptr Pool) : Bool :=
  self.addr == rhs.addr

/-- What it means for a comparison `eq` of two objects of class `T`, given
by their addresses, to be object identity: it holds exactly between an
object and itself, it is reflexive and symmetric, and in every memory `mem`
two distinct objects with equal fields compare unequal. -/
def IsObjectIdentity {T : Type} (eq : Ptr T → Ptr T → Bool) : Prop :=
  (∀ a b : Ptr T, eq a b = true ↔ a = b) ∧
  (∀ a : Ptr T, eq a a = true) ∧
  (∀ a b : Ptr T, eq a b = eq b a) ∧
  (∀ (mem : Ptr T → T) (a b : Ptr T), a ≠ b → mem a = mem b → eq a b = false)

/-! ## Thread attributes -/

/-- The null pointer, for pointers held as addresses. -/
def nullptr : Nat := 0

namespace thread

/-- Source: `class Attributes : public Named_object` with `void* stack_addr_;`,
`::std::size_t stack_size_bytes_;` and `priority_t priority_;`. -/
structure Attributes extends Named_object where
  stack_addr_ : Nat
  stack_size_bytes_ : Nat
  priority_ : priority_t
  deriving DecidableEq, Repr

/-- Source: `Attributes::Attributes (const char* name) : Named_object (name)`
with body `stack_addr_ = nullptr; stack_size_bytes_ = 0;
priority_ = thread::priority::normal;`.  As for the other attribute classes,
`base` is the base sub-object left by the base constructor. -/
def Attributes.ctor (base : Named_object) : Attributes :=
  { toNamed_object := base, stack_addr_ := nullptr, stack_size_bytes_ := 0,
    priority_ := thread.priority.normal }

/-- Source: `Attributes::get_stack_address (void** stack_address) const`;
the output pointer is `none` when null, else `some v` with `v` the content
of its cell, and the result carries the content after the call. -/
def Attributes.get_stack_address (self : Attributes) (stack_address : Option Nat) :
    result_t × Option Nat :=
  match stack_address with
  | some _ => (result.ok, some self.stack_addr_)
  | Option.none => (result.ok, Option.none)

/-- Source: `Attributes::set_stack_address (void* stack_address)` -/
def Attributes.set_stack_address (self : Attributes) (stack_address : Nat) :
    result_t × Attributes :=
  (result.ok, { self with stack_addr_ := stack_address })

/-- Source: `Attributes::get_stack_size_bytes (::std::size_t* stack_size_bytes)
const` -/
def Attributes.get_stack_size_bytes (self : Attributes) (stack_size_bytes : Option Nat) :
    result_t × Option Nat :=
  match stack_size_bytes with
  | some _ => (result.ok, some self.stack_size_bytes_)
  | Option.none => (result.ok, Option.none)

/-- Source: `Attributes::set_stack_size_bytes (::std::size_t stack_size_bytes)` -/
def Attributes.set_stack_size_bytes (self : Attributes) (stack_size_bytes : Nat) :
    result_t × Attributes :=
  (result.ok, { self with stack_size_bytes_ := stack_size_bytes })

/-- Source: `Attributes::get_priority (priority_t* priority) const` -/
def Attributes.get_priority (self : Attributes) (priority : Option priority_t) :
    result_t × Option priority_t :=
  match priority with
  | some _ => (result.ok, some self.priority_)
  | Option.none => (result.ok, Option.none)

/-- Source: `Attributes::set_priority (priority_t priority)` -/
def Attributes.set_priority (self : Attributes) (priority : priority_t) :
    result_t × Attributes :=
  (result.ok, { self with priority_ := priority })

end thread

/-! ## Timer attributes -/

namespace timer

/-- Source: `class Attributes : public Named_object` with `type_t type_;`. -/
structure Attributes extends Named_object where
  type_ : type
  deriving DecidableEq, Repr

/-- Source: `Attributes::Attributes (const char* name) : Named_object (name)`
with body `type_ = type::once;`. -/
def Attributes.ctor (base : Named_object) : Attributes :=
  { toNamed_object := base, type_ := type.once }

/-- Source: `Attributes::get_type (void) const`: `return type_;` -/
def Attributes.get_type (self : Attributes) : type :=
  self.type_

/-- Source: `Attributes::set_type (type_t type)`: `type_ = type;` -/
def Attributes.set_type (self : Attributes) (type : timer.type) : Attributes :=
  { self with type_ := type }

/-- Source: `class Periodic_attributes : public Attributes` (no field of its
own). -/
structure Periodic_attributes extends Attributes
  deriving DecidableEq, Repr

/-- Source: `Periodic_attributes::Periodic_attributes (const char* name) :
Attributes (name)` with body `type_ = type::periodic;`. -/
def Periodic_attributes.ctor (base : Named_object) : Periodic_attributes :=
  { toAttributes := { Attributes.ctor base with type_ := type.periodic } }

end timer

/-! ## Mutex attributes -/

namespace mutex

/-- Source: `class Attributes : public Named_object` with
`thread::priority_t priority_ceiling_;`, `mutex::protocol_t protocol_;`,
`mutex::robustness_t robustness_;` and `mutex::type_t type_;`. -/
structure Attributes extends Named_object where
  priority_ceiling_ : thread.priority_t
  protocol_ : protocol
  robustness_ : robustness
  type_ : type
  deriving DecidableEq, Repr

/-- Source: `Attributes::Attributes (const char* name) : Named_object (name)`
with body `priority_ceiling_ = thread::priority::max;
protocol_ = protocol::none; robustness_ = robustness::stalled;
type_ = type::normal;`. -/
def Attributes.ctor (base : Named_object) : Attributes :=
  { toNamed_object := base, priority_ceiling_ := thread.priority.max,
    protocol_ := protocol.none, robustness_ := robustness.stalled,
    type_ := type.normal }

/-- Source: `Attributes::get_prio_ceiling (thread::priority_t* prio_ceiling)
const`; output pointers as for the thread attributes. -/
def Attributes.get_prio_ceiling (self : Attributes)
    (prio_ceiling : Option thread.priority_t) : result_t × Option thread.priority_t :=
  match prio_ceiling with
  | some _ => (result.ok, some self.priority_ceiling_)
  | Option.none => (result.ok, Option.none)

/-- Source: `Attributes::set_prio_ceiling (thread::priority_t prio_ceiling)` -/
def Attributes.set_prio_ceiling (self : Attributes) (prio_ceiling : thread.priority_t) :
    result_t × Attributes :=
  (result.ok, { self with priority_ceiling_ := prio_ceiling })

/-- Source: `Attributes::get_protocol (protocol_t* protocol) const` -/
def Attributes.get_protocol (self : Attributes) (protocol : Option mutex.protocol) :
    result_t × Option mutex.protocol :=
  match protocol with
  | some _ => (result.ok, some self.protocol_)
  | Option.none => (result.ok, Option.none)

/-- Source: `Attributes::set_protocol (protocol_t protocol)` -/
def Attributes.set_protocol (self : Attributes) (protocol : mutex.protocol) :
    result_t × Attributes :=
  (result.ok, { self with protocol_ := protocol })

/-- Source: `Attributes::get_robustness (robustness_t* robustness) const` -/
def Attributes.get_robustness (self : Attributes) (robustness : Option mutex.robustness) :
    result_t × Option mutex.robustness :=
  match robustness with
  | some _ => (result.ok, some self.robustness_)
  | Option.none => (result.ok, Option.none)

/-- Source: `Attributes::set_robustness (robustness_t robustness)` -/
def Attributes.set_robustness (self : Attributes) (robustness : mutex.robustness) :
    result_t × Attributes :=
  (result.ok, { self with robustness_ := robustness })

/-- Source: `Attributes::get_type (type_t* type) const` -/
def Attributes.get_type (self : Attributes) (type : Option mutex.type) :
    result_t × Option mutex.type :=
  match type with
  | some _ => (result.ok, some self.type_)
  | Option.none => (result.ok, Option.none)

/-- Source: `Attributes::set_type (type_t type)` -/
def Attributes.set_type (self : Attributes) (type : mutex.type) :
    result_t × Attributes :=
  (result.ok, { self with type_ := type })

/-- Source: `class Recursive_attributes : public Attributes` (no field of its
own). -/
structure Recursive_attributes extends Attributes
  deriving DecidableEq, Repr

/-- Source: `Recursive_attributes::Recursive_attributes (const char* name) :
Attributes (name)` with body `type_ = type::recursive;`. -/
def Recursive_attributes.ctor (base : Named_object) : Recursive_attributes :=
  { toAttributes := { Attributes.ctor base with type_ := type.recursive } }

end mutex

/-! ## Sequences of semaphore attribute setter calls -/

namespace semaphore

/-- A call of one of the two setters of `semaphore::Attributes`, with its
argument. -/
inductive Setter_call
  | set_intial_count (initial_count : count_t)
  | set_max_count (max_count : count_t)
  deriving DecidableEq, Repr

/-- The attributes after one setter call (the `result::ok` it returns is
dropped). -/
def Attributes.call (self : Attributes) : Setter_call → Attributes
  | .set_intial_count v => (self.set_intial_count v).2
  | .set_max_count v => (self.set_max_count v).2

/-- The attributes after a sequence of setter calls, first call first. -/
def Attributes.calls (self : Attributes) : List Setter_call → Attributes
  | [] => self
  | c :: cs => Attributes.calls (self.call c) cs

/-- The arguments of the `set_intial_count` calls of a sequence, in call
order. -/
def Setter_call.intial_count_args (cs : List Setter_call) : List count_t :=
  cs.filterMap fun c =>
    match c with
    | .set_intial_count v => some v
    | .set_max_count _ => Option.none

/-- The arguments of the `set_max_count` calls of a sequence, in call
order. -/
def Setter_call.max_count_args (cs : List Setter_call) : List count_t :=
  cs.filterMap fun c =>
    match c with
    | .set_intial_count _ => Option.none
    | .set_max_count v => some v

/-- The argument of the last `set_intial_count` call of a sequence, or
`default` when the sequence has none. -/
def Setter_call.last_intial_count (default : count_t) (cs : List Setter_call) : count_t :=
  (Setter_call.intial_count_args cs).getLast?.getD default

/-- The argument of the last `set_max_count` call of a sequence, or
`default` when the sequence has none. -/
def Setter_call.last_max_count (default : count_t) (cs : List Setter_call) : count_t :=
  (Setter_call.max_count_args cs).getLast?.getD default

end semaphore

/-! ## Memory pool operations -/

/-- Modelled from the spec: the memory pool of section 4.8.  `Pool::alloc`
and `Pool::free` are only declared in `os.h` and the class leaves its free
list to "more internal data".  The pool is a linear array of `items_` blocks
of `item_size_bytes_` bytes starting at `pool_addr_`; `free_list_` holds the
addresses of the free blocks, head first. -/
structure Pool_state extends Pool where
  free_list_ : List Nat
  deriving DecidableEq, Repr

/-- Modelled from the spec: "`p` lies on a block boundary within the buffer"
(section 4.8), the check `Pool::free` makes on its argument. -/
def Pool.is_block (self : Pool_state) (p : Nat) : Bool :=
  decide (self.pool_addr_ ≤ p ∧
    p < self.pool_addr_ + self.items_ * self.item_size_bytes_ ∧
    (p - self.pool_addr_) % self.item_size_bytes_ = 0)

/-- Modelled from the spec: `Pool::alloc` is only declared in `os.h`;
"`alloc()` pops head or returns ∅" (section 4.8), ∅ being the null pointer
of the declaration's documentation.  Returns the block and the new state. -/
def Pool.alloc (self : Pool_state) : Nat × Pool_state :=
  match self.free_list_ with
  | [] => (nullptr, self)
  | b :: rest => (b, { self with free_list_ := rest })

/-- Modelled from the spec: `Pool::free` is only declared in `os.h`;
"`free(p)` validates `p` lies on a block boundary within the buffer and
pushes to head, else returns `error_value`" (section 4.8). -/
def Pool.free (self : Pool_state) (block : Nat) : result_t × Pool_state :=
  if Pool.is_block self block then
    (result.ok, { self with free_list_ := block :: self.free_list_ })
  else
    (result.error_value, self)

/-- The number of free blocks of a pool. -/
def Pool.free_count (self : Pool_state) : Nat :=
  self.free_list_.length

/-! ## Semaphore post -/

/-- Modelled from the spec: `Semaphore::post` is only declared in `os.h`.
"Exceeds `max_count` → `eoverflow`"; otherwise "`post()` increments the
counter; if any waiter exists, wakes the highest-priority one" (section
4.7).  `list_` is ordered by priority, so the waiter woken is its head; the
count it was woken for is consumed by the woken thread when it runs again,
not by `post`. -/
def Semaphore.post (self : Semaphore) : result_t × Semaphore :=
  if self.count_ + 1 > self.max_count_ then
    (result.eoverflow, self)
  else
    (result.ok, { self with count_ := self.count_ + 1, list_ := self.list_.tail })

/-! ## Timer start and stop -/

namespace timer

/-- Modelled from the spec: "state ∈ {stopped, running}" (section 3, Timer);
`os.h` leaves the state to "more internal data". -/
inductive state
  | stopped | running
  deriving DecidableEq, Repr

end timer

/-- Modelled from the spec: the timer of sections 3 and 4.10: besides the
data members of `class Timer`, its state, its period in ticks and its expiry
tick.  A timer is on the tick clock's timer list exactly while it is
running. -/
structure Timer_state extends Timer where
  state_ : timer.state
  period_ : Nat
  expiry_ : Nat
  deriving DecidableEq, Repr

/-- Modelled from the spec: the constructors of `Timer` are only declared in
`os.h`; a timer that was never started is not running ("result::eagain: The
timer is not yet started").  `base` holds the data members set from the
arguments. -/
def Timer_state.ctor (base : Timer) : Timer_state :=
  { toTimer := base, state_ := timer.state.stopped, period_ := 0, expiry_ := 0 }

/-- Modelled from the spec: `Timer::start` is only declared in `os.h`;
"`start(ticks)`: records expiry = now + ticks; if periodic, `ticks` also
becomes the period; if already running, restart" (section 4.10), `now` being
the 64-bit tick counter. -/
def Timer.start (self : Timer_state) (now : Nat) (ticks : Nat) : result_t × Timer_state :=
  (result.ok,
    { self with
      state_ := timer.state.running
      expiry_ := (now + ticks) % 2 ^ 64
      period_ := if self.type_ = timer.type.periodic then ticks else self.period_ })

/-- Modelled from the spec: `Timer::stop` is only declared in `os.h`;
"`stop()`: removes from the timer list; if already stopped, returns
`eagain`" (section 4.10). -/
def Timer.stop (self : Timer_state) : result_t × Timer_state :=
  match self.state_ with
  | timer.state.stopped => (result.eagain, self)
  | timer.state.running => (result.ok, { self with state_ := timer.state.stopped })

/-! ## Memory pool attributes -/

namespace pool

/-- Source: `class Attributes : public Named_object` with `void* pool_addr_;`. -/
structure Attributes extends Named_object where
  pool_addr_ : Nat
  deriving DecidableEq, Repr

/-- Source: `Attributes::Attributes (const char* name) : Named_object (name)`
with body `pool_addr_ = nullptr;`. -/
def Attributes.ctor (base : Named_object) : Attributes :=
  { toNamed_object := base, pool_addr_ := nullptr }

/-- Source: `Attributes::get_pool_addr (void) const`: `return pool_addr_;` -/
def Attributes.get_pool_addr (self : Attributes) : Nat :=
  self.pool_addr_

/-- Source: `Attributes::set_pool_addr (void* addr)`: `pool_addr_ = addr;` -/
def Attributes.set_pool_addr (self : Attributes) (addr : Nat) : Attributes :=
  { self with pool_addr_ := addr }

end pool

/-! ## Helper lemmas -/

/-- A width that can hold 999999 can hold 1000000 as well. -/
theorem two_pow_gt_million (w : Nat) (h : 999999 < 2 ^ w) : 1000000 < 2 ^ w := by
  have hw : 20 ≤ w := by
    by_contra hlt
    have h19 : w ≤ 19 := by omega
    have hle : 2 ^ w ≤ 2 ^ 19 := Nat.pow_le_pow_right (by decide) h19
    have h2 : (2 : Nat) ^ 19 = 524288 := by norm_num
    omega
  have hge : 2 ^ 20 ≤ 2 ^ w := Nat.pow_le_pow_right (by decide) hw
  have h2 : (2 : Nat) ^ 20 = 1048576 := by norm_num
  omega

/-- On the overflow-free range the wrapped computation is the plain one. -/
theorem ticks_cast_no_overflow (w m : Nat)
    (hrep : m * 1000 + 999999 < 2 ^ w)
    (hq : (m * 1000 + 999999) / 1000000 < 2 ^ 32) :
    Systick_clock.ticks_cast w m = (m * 1000 + 999999) / 1000000 := by
  have h9 : 999999 < 2 ^ w := by omega
  have hM : 1000000 < 2 ^ w := two_pow_gt_million w h9
  have hf : 1000 < 2 ^ w := by omega
  have hp : m * 1000 < 2 ^ w := by omega
  unfold Systick_clock.ticks_cast Systick_clock.frequency_hz
  rw [Nat.mod_eq_of_lt hf, Nat.mod_eq_of_lt hp, Nat.mod_eq_of_lt h9,
    Nat.mod_eq_of_lt hrep, Nat.mod_eq_of_lt hM, Nat.mod_eq_of_lt hq]

/-- Integer form of the ceiling: `(a + 999999) / 1000000` is the ceiling of
the rational `a / 1000000`. -/
theorem ceil_div_million (a : Nat) :
    ⌈((a : ℚ) / 1000000)⌉₊ = (a + 999999) / 1000000 := by
  apply le_antisymm
  · rw [Nat.ceil_le]
    rw [div_le_iff₀ (by norm_num : (0 : ℚ) < 1000000)]
    have h : a ≤ (a + 999999) / 1000000 * 1000000 := by omega
    exact_mod_cast h
  · by_contra hlt
    push_neg at hlt
    have h1 : ((a : ℚ) / 1000000) ≤ ((⌈((a : ℚ) / 1000000)⌉₊ : Nat) : ℚ) := Nat.le_ceil _
    rw [div_le_iff₀ (by norm_num : (0 : ℚ) < 1000000)] at h1
    have h2 : a ≤ ⌈((a : ℚ) / 1000000)⌉₊ * 1000000 := by exact_mod_cast h1
    omega

/-- Nested sections keep the state in the shape `nest_inv`, for every
constructor that saves the state and raises it and every destructor that
puts the saved state back. -/
theorem run_scopes_nest_inv {σ Obj : Type} (ctor : σ → Obj × σ) (dtor : Obj → σ → σ)
    (saved : Obj → σ) (raise : σ → σ)
    (hc : ∀ s, saved (ctor s).1 = s ∧ (ctor s).2 = raise s)
    (hd : ∀ o s, dtor o s = saved o) (s0 : σ) :
    ∀ (evs : List ScopeEvent) (s : σ) (live : List Obj) (s' : σ) (live' : List Obj),
      nest_inv raise s0 s (live.map saved) →
      run_scopes ctor dtor evs (s, live) = some (s', live') →
      nest_inv raise s0 s' (live'.map saved) := by
  intro evs
  induction evs with
  | nil =>
    intro s live s' live' hinv hrun
    simp only [run_scopes, Option.some.injEq, Prod.mk.injEq] at hrun
    obtain ⟨rfl, rfl⟩ := hrun
    exact hinv
  | cons ev evs ih =>
    intro s live s' live' hinv hrun
    cases ev with
    | construct =>
      simp only [run_scopes] at hrun
      apply ih _ _ _ _ _ hrun
      simp only [List.map_cons, nest_inv]
      rw [(hc s).1, (hc s).2]
      exact ⟨rfl, hinv⟩
    | destroy =>
      cases live with
      | nil => simp [run_scopes] at hrun
      | cons o rest =>
        simp only [run_scopes] at hrun
        apply ih _ _ _ _ _ hrun
        simp only [List.map_cons, nest_inv] at hinv
        rw [hd]
        exact hinv.2

/-- With a live section the state is a raised one. -/
theorem nest_inv_raised {σ : Type} (raise : σ → σ) (s0 s : σ) (saved : List σ)
    (h : nest_inv raise s0 s saved) (hne : saved ≠ []) : ∃ m, s = raise m := by
  cases saved with
  | nil => exact absurd rfl hne
  | cons x rest => exact ⟨x, h.1⟩

/-- Integer form of the ceiling: `(a + 999) / 1000` is the ceiling of the
rational `a / 1000`. -/
theorem ceil_div_thousand (a : Nat) :
    ⌈((a : ℚ) / 1000)⌉₊ = (a + 999) / 1000 := by
  apply le_antisymm
  · rw [Nat.ceil_le]
    rw [div_le_iff₀ (by norm_num : (0 : ℚ) < 1000)]
    have h : a ≤ (a + 999) / 1000 * 1000 := by omega
    exact_mod_cast h
  · by_contra hlt
    push_neg at hlt
    have h1 : ((a : ℚ) / 1000) ≤ ((⌈((a : ℚ) / 1000)⌉₊ : Nat) : ℚ) := Nat.le_ceil _
    rw [div_le_iff₀ (by norm_num : (0 : ℚ) < 1000)] at h1
    have h2 : a ≤ ⌈((a : ℚ) / 1000)⌉₊ * 1000 := by exact_mod_cast h1
    omega

/-- The 32-bit instance of `ticks_cast` with its constants evaluated. -/
theorem ticks_cast_u32 (m : Nat) :
    Systick_clock.ticks_cast 32 m
      = ((m * 1000 % 4294967296 + 999999) % 4294967296 / 1000000) % 4294967296 := by
  unfold Systick_clock.ticks_cast Systick_clock.frequency_hz
  norm_num

/-- The last element of a list with one more element in front, with a
fallback: the new front element takes over the role of the fallback. -/
theorem getLast_getD_cons {α : Type} (v d : α) (l : List α) :
    ((v :: l).getLast?).getD d = (l.getLast?).getD v := by
  cases l with
  | nil => rfl
  | cons x rest =>
    rw [List.getLast?_cons_cons]
    cases h : (x :: rest).getLast? with
    | none => simp at h
    | some y => rfl

/-- After a sequence of setter calls the two counts are the arguments of
the last call of each setter, or what they were when there was none, and
the name is what it was. -/
theorem calls_store_last (cs : List semaphore.Setter_call) :
    ∀ a : semaphore.Attributes,
      (a.calls cs).initial_count_
        = semaphore.Setter_call.last_intial_count a.initial_count_ cs ∧
      (a.calls cs).max_count_
        = semaphore.Setter_call.last_max_count a.max_count_ cs ∧
      (a.calls cs).name_ = a.name_ := by
  induction cs with
  | nil =>
    intro a
    exact ⟨rfl, rfl, rfl⟩
  | cons c cs ih =>
    intro a
    obtain ⟨h1, h2, h3⟩ := ih (a.call c)
    cases c with
    | set_intial_count v =>
      refine ⟨?_, ?_, ?_⟩
      · rw [semaphore.Attributes.calls, h1]
        simp only [semaphore.Setter_call.last_intial_count,
          semaphore.Setter_call.intial_count_args, List.filterMap_cons]
        rw [getLast_getD_cons]
        rfl
      · rw [semaphore.Attributes.calls, h2]
        rfl
      · rw [semaphore.Attributes.calls, h3]
        rfl
    | set_max_count v =>
      refine ⟨?_, ?_, ?_⟩
      · rw [semaphore.Attributes.calls, h1]
        rfl
      · rw [semaphore.Attributes.calls, h2]
        simp only [semaphore.Setter_call.last_max_count,
          semaphore.Setter_call.max_count_args, List.filterMap_cons]
        rw [getLast_getD_cons]
        rfl
      · rw [semaphore.Attributes.calls, h3]
        rfl

/-! ## Theorems -/

/-- C1 (defect of the code): `ticks_cast` is documented to round the
microseconds up to ticks, and the claim asks for the ceiling of
`m * frequency_hz / 1000000` at every argument; at the 32-bit unsigned
argument 4293968 the unguarded intermediate `m * 1000 + 999999` wraps and
`ticks_cast` returns 0, while the ceiling is 4294. -/
theorem ticks_cast_ceiling_fails_u32 :
    4293968 < 2 ^ 32 ∧
    Systick_clock.ticks_cast 32 4293968 = 0 ∧
    ⌈((4293968 : Nat) : ℚ) * (1000 : Nat) / 1000000⌉₊ = 4294 ∧
    Systick_clock.ticks_cast 32 4293968
      ≠ ⌈((4293968 : Nat) : ℚ) * (1000 : Nat) / 1000000⌉₊ := by
  have hc : ⌈((4293968 : Nat) : ℚ) * (1000 : Nat) / 1000000⌉₊ = 4294 := by
    have he : ((4293968 : Nat) : ℚ) * (1000 : Nat) / 1000000
        = ((4293968000 : Nat) : ℚ) / 1000000 := by norm_num
    rw [he, ceil_div_million 4293968000]
  have ht : Systick_clock.ticks_cast 32 4293968 = 0 := by decide
  refine ⟨by decide, ht, hc, ?_⟩
  rw [ht, hc]
  decide

/-- Where nothing wraps the code does round up: when `m * 1000 + 999999` is
representable in `w` bits and the quotient fits in 32 bits, `ticks_cast(m)`
is the mathematical ceiling of `m * frequency_hz / 1000000`. -/
theorem ticks_cast_eq_ceiling (w m : Nat)
    (hrep : m * 1000 + 999999 < 2 ^ w)
    (hq : (m * 1000 + 999999) / 1000000 < 2 ^ 32) :
    Systick_clock.ticks_cast w m
      = ⌈((m : ℚ) * (Systick_clock.frequency_hz : ℚ) / 1000000)⌉₊ := by
  rw [ticks_cast_no_overflow w m hrep hq]
  have h := ceil_div_million (m * 1000)
  push_cast at h
  unfold Systick_clock.frequency_hz
  push_cast
  rw [h]

/-- Instance of `ticks_cast_eq_ceiling`: the 64-bit argument 1500
microseconds gives the ceiling, 2 ticks. -/
theorem ticks_cast_eq_ceiling_witness :
    Systick_clock.ticks_cast 64 1500
      = ⌈(((1500 : Nat) : ℚ) * (Systick_clock.frequency_hz : ℚ) / 1000000)⌉₊ :=
  ticks_cast_eq_ceiling 64 1500 (by decide) (by decide)

/-- C2: on the overflow-free range `t = ticks_cast(m)` is the least tick
count with `t * 1000 ≥ m`: it covers `m`, nothing smaller does, and for
`m > 0` it is at least 1 with `(t - 1) * 1000 < m`. -/
theorem ticks_cast_rounds_up (w m : Nat)
    (hrep : m * 1000 + 999999 < 2 ^ w)
    (hq : (m * 1000 + 999999) / 1000000 < 2 ^ 32) :
    m ≤ Systick_clock.ticks_cast w m * 1000 ∧
    (∀ t, m ≤ t * 1000 → Systick_clock.ticks_cast w m ≤ t) ∧
    (0 < m → 1 ≤ Systick_clock.ticks_cast w m ∧
      (Systick_clock.ticks_cast w m - 1) * 1000 < m) := by
  rw [ticks_cast_no_overflow w m hrep hq]
  refine ⟨by omega, ?_, ?_⟩
  · intro t ht
    omega
  · intro hm
    omega

/-- Witness for C2: 32-bit argument 1001 microseconds. -/
theorem ticks_cast_rounds_up_witness :
    1001 ≤ Systick_clock.ticks_cast 32 1001 * 1000 ∧
    (∀ t, 1001 ≤ t * 1000 → Systick_clock.ticks_cast 32 1001 ≤ t) ∧
    (0 < 1001 → 1 ≤ Systick_clock.ticks_cast 32 1001 ∧
      (Systick_clock.ticks_cast 32 1001 - 1) * 1000 < 1001) :=
  ticks_cast_rounds_up 32 1001 (by decide) (by decide)

/-- C3: a `Critical_section_irq` stores the value returned by
`critical::enter()` and hands exactly that value to `critical::exit()`; with
`enter` returning the current mask and raising it and `exit (s)` setting the
mask to `s`, after any run of properly nested constructions and
destructions started with no live section and mask `m0`, the mask is a
raised one as long as a section is alive and is `m0` again once none is. -/
theorem Critical_section_irq_restores_and_nests
    (raise : critical.status_t → critical.status_t) (evs : List ScopeEvent)
    (m0 mask : critical.status_t) (live : List Critical_section_irq)
    (hrun : run_scopes (Critical_section_irq.ctor (critical.enter raise))
      (Critical_section_irq.dtor critical.exit) evs (m0, []) = some (mask, live)) :
    (∀ (σ : Type) (enter : σ → critical.status_t × σ)
        (exit : critical.status_t → σ → σ) (cpu cpu' : σ),
        (Critical_section_irq.ctor enter cpu).1.status_ = (enter cpu).1 ∧
        (Critical_section_irq.ctor enter cpu).2 = (enter cpu).2 ∧
        Critical_section_irq.dtor exit (Critical_section_irq.ctor enter cpu).1 cpu'
          = exit (enter cpu).1 cpu') ∧
    (live ≠ [] → ∃ m, mask = raise m) ∧
    (live = [] → mask = m0) ∧
    nest_inv raise m0 mask (live.map fun cs => cs.status_) := by
  have hinv := run_scopes_nest_inv (Critical_section_irq.ctor (critical.enter raise))
    (Critical_section_irq.dtor critical.exit) (fun cs => cs.status_) raise
    (fun s => ⟨rfl, rfl⟩) (fun o s => rfl) m0 evs m0 [] mask live rfl hrun
  refine ⟨fun σ enter exit cpu cpu' => ⟨rfl, rfl, rfl⟩, ?_, ?_, hinv⟩
  · intro hne
    exact nest_inv_raised raise m0 mask _ hinv (by simpa using hne)
  · intro hnil
    subst hnil
    exact hinv

/-- Witness for C3: from mask 3, with raising to at least 16, two nested
sections of which the inner one has ended: the mask is still 16 and the
outer section holds the 3 to restore. -/
theorem Critical_section_irq_restores_and_nests_witness :
    run_scopes (Critical_section_irq.ctor (critical.enter fun m => Nat.max m 16))
      (Critical_section_irq.dtor critical.exit)
      [ScopeEvent.construct, ScopeEvent.construct, ScopeEvent.destroy] (3, [])
      = some (16, [{ status_ := 3 }]) ∧
    nest_inv (fun m => Nat.max m 16) 3 16 [3] :=
  ⟨rfl, (Critical_section_irq_restores_and_nests (fun m => Nat.max m 16)
    [ScopeEvent.construct, ScopeEvent.construct, ScopeEvent.destroy] 3 16
    [{ status_ := 3 }] rfl).2.2.2⟩

/-- C4: a `scheduler::Critical_section` stores the status returned by its
one call of `scheduler::lock()` and hands exactly that status to its one
call of `scheduler::unlock()`; with `lock` returning the current status and
locking and `unlock (s)` setting the status to `s`, after any run of
properly nested constructions and destructions started with no live section
and status `s0`, the scheduler is locked as long as a section is alive and
has status `s0` again once none is. -/
theorem scheduler_Critical_section_restores_and_nests
    (locked : scheduler.status_t) (evs : List ScopeEvent)
    (s0 status : scheduler.status_t) (live : List scheduler.Critical_section)
    (hrun : run_scopes (scheduler.Critical_section.ctor (scheduler.lock locked))
      (scheduler.Critical_section.dtor scheduler.unlock) evs (s0, [])
      = some (status, live)) :
    (∀ (σ : Type) (lock : σ → scheduler.status_t × σ)
        (unlock : scheduler.status_t → σ → scheduler.status_t × σ) (s s' : σ),
        (scheduler.Critical_section.ctor lock s).1.status_ = (lock s).1 ∧
        (scheduler.Critical_section.ctor lock s).2 = (lock s).2 ∧
        scheduler.Critical_section.dtor unlock (scheduler.Critical_section.ctor lock s).1 s'
          = (unlock (lock s).1 s').2) ∧
    (live ≠ [] → status = locked) ∧
    (live = [] → status = s0) ∧
    nest_inv (fun _ => locked) s0 status (live.map fun cs => cs.status_) := by
  have hinv := run_scopes_nest_inv (scheduler.Critical_section.ctor (scheduler.lock locked))
    (scheduler.Critical_section.dtor scheduler.unlock) (fun cs => cs.status_)
    (fun _ => locked) (fun s => ⟨rfl, rfl⟩) (fun o s => rfl) s0 evs s0 [] status live rfl hrun
  refine ⟨fun σ lock unlock s s' => ⟨rfl, rfl, rfl⟩, ?_, ?_, hinv⟩
  · intro hne
    obtain ⟨_, hm⟩ := nest_inv_raised (fun _ => locked) s0 status _ hinv (by simpa using hne)
    exact hm
  · intro hnil
    subst hnil
    exact hinv

/-- Witness for C4: from an unlocked scheduler (`false`, locked being
`true`), two nested sections of which the inner one has ended: the scheduler
is still locked and the outer section holds the `false` to restore. -/
theorem scheduler_Critical_section_restores_and_nests_witness :
    run_scopes (scheduler.Critical_section.ctor (scheduler.lock true))
      (scheduler.Critical_section.dtor scheduler.unlock)
      [ScopeEvent.construct, ScopeEvent.construct, ScopeEvent.destroy] (false, [])
      = some (true, [{ status_ := false }]) ∧
    nest_inv (fun _ => true) false true [false] :=
  ⟨rfl, (scheduler_Critical_section_restores_and_nests true
    [ScopeEvent.construct, ScopeEvent.construct, ScopeEvent.destroy] false true
    [{ status_ := false }] rfl).2.2.2⟩

/-- C5: among the sixteen documented result names, two different names
denote the same value exactly when they are one of the alias pairs
(`eagain`, `error_resource`) or (`etimedout`, `error_timeout_resource`), in
either order; every other pair of different names has different values. -/
theorem result_names_equal_iff_alias (a b : result.Name)
    (ha : a ∈ result.Name.documented) (hb : b ∈ result.Name.documented)
    (hab : a ≠ b) :
    a.value = b.value ↔
      ((a = result.Name.eagain ∧ b = result.Name.error_resource) ∨
       (a = result.Name.error_resource ∧ b = result.Name.eagain) ∨
       (a = result.Name.etimedout ∧ b = result.Name.error_timeout_resource) ∨
       (a = result.Name.error_timeout_resource ∧ b = result.Name.etimedout)) := by
  revert ha hb hab
  cases a <;> cases b <;> decide

/-- Witness for C5: `eagain` and `error_resource` are two names of one
value. -/
theorem result_names_equal_iff_alias_witness :
    result.Name.eagain.value = result.Name.error_resource.value :=
  (result_names_equal_iff_alias result.Name.eagain result.Name.error_resource
    (by decide) (by decide) (by decide)).2 (Or.inl ⟨rfl, rfl⟩)

/-- C6 (as stated, refuted): `event_signal` is an enumerator of `result`
that is none of the sixteen documented names, and its value is the value of
none of them. -/
theorem result_enumerator_not_documented :
    result.Name.event_signal ∉ result.Name.documented ∧
    (∀ n ∈ result.Name.documented, n.value ≠ result.Name.event_signal.value) ∧
    ¬ (∀ e : result.Name, e ∈ result.Name.documented) := by
  refine ⟨by decide, by decide, ?_⟩
  intro h
  exact absurd (h result.Name.event_signal) (by decide)

/-- C6 (amended): the enumerators of `result` are exactly the sixteen
documented names together with `event_signal`, `event_message`,
`event_mail` and `reserved`; these four are not documented names and their
values differ from those of all documented names. -/
theorem result_enumerators_exactly (e : result.Name) :
    (e ∈ result.Name.documented ∨ e = result.Name.event_signal ∨
      e = result.Name.event_message ∨ e = result.Name.event_mail ∨
      e = result.Name.reserved) ∧
    ((e = result.Name.event_signal ∨ e = result.Name.event_message ∨
      e = result.Name.event_mail ∨ e = result.Name.reserved) →
        e ∉ result.Name.documented ∧
        ∀ n ∈ result.Name.documented, n.value ≠ e.value) := by
  cases e <;> decide

/-- Witness for C6 (amended): `reserved` is one of the four further
enumerators. -/
theorem result_enumerators_exactly_witness :
    result.Name.reserved ∉ result.Name.documented ∧
    ∀ n ∈ result.Name.documented, n.value ≠ result.Name.reserved.value :=
  (result_enumerators_exactly result.Name.reserved).2
    (Or.inr (Or.inr (Or.inr rfl)))

/-- C7: the reserved priority bands are idle = 1, low = 0x40,
below_normal = 0x60, normal = 0x80, above_normal = 0xA0, high = 0xC0,
realtime = 0xE0 and max = 0xFF, each within the range 0..255 of the 8-bit
`priority_t`. -/
theorem priority_bands_values :
    (thread.priority.idle = 1 ∧ thread.priority.low = 0x40 ∧
     thread.priority.below_normal = 0x60 ∧ thread.priority.normal = 0x80 ∧
     thread.priority.above_normal = 0xA0 ∧ thread.priority.high = 0xC0 ∧
     thread.priority.realtime = 0xE0 ∧ thread.priority.max = 0xFF) ∧
    (thread.priority.idle ≤ 255 ∧ thread.priority.low ≤ 255 ∧
     thread.priority.below_normal ≤ 255 ∧ thread.priority.normal ≤ 255 ∧
     thread.priority.above_normal ≤ 255 ∧ thread.priority.high ≤ 255 ∧
     thread.priority.realtime ≤ 255 ∧ thread.priority.max ≤ 255) := by
  decide

/-- C8: the tick frequency is 1000 Hz, so one tick is 1000 microseconds,
and for every unsigned argument type of at least 32 bits
`ticks_cast(1000) = 1` and `ticks_cast(1000000) = 1000`. -/
theorem tick_time_base_1000_hz (w : Nat) (hw : 32 ≤ w) :
    Systick_clock.frequency_hz = 1000 ∧
    1000000 / Systick_clock.frequency_hz = 1000 ∧
    Systick_clock.ticks_cast w 1000 = 1 ∧
    Systick_clock.ticks_cast w 1000000 = 1000 := by
  have hge : 2 ^ 32 ≤ 2 ^ w := Nat.pow_le_pow_right (by decide) hw
  have h32 : (2 : Nat) ^ 32 = 4294967296 := by norm_num
  refine ⟨rfl, by decide, ?_, ?_⟩
  · rw [ticks_cast_no_overflow w 1000 (by omega) (by norm_num)]
  · rw [ticks_cast_no_overflow w 1000000 (by omega) (by norm_num)]

/-- Witness for C8: a 32-bit unsigned argument type. -/
theorem tick_time_base_1000_hz_witness :
    Systick_clock.frequency_hz = 1000 ∧
    1000000 / Systick_clock.frequency_hz = 1000 ∧
    Systick_clock.ticks_cast 32 1000 = 1 ∧
    Systick_clock.ticks_cast 32 1000000 = 1000 :=
  tick_time_base_1000_hz 32 (by decide)

/-- C9: every freshly constructed `semaphore::Binary_attributes` reports
`max_count = 1` through `get_max_count` and `initial_count = 0` through
`get_intial_count`, both returning `result::ok`, whatever the name and
whatever the output cell held before. -/
theorem Binary_attributes_counts (base : Named_object) (cell : semaphore.count_t) :
    (semaphore.Binary_attributes.ctor base).toAttributes.get_max_count (some cell)
      = (result.ok, some 1) ∧
    (semaphore.Binary_attributes.ctor base).toAttributes.get_intial_count (some cell)
      = (result.ok, some 0) := by
  exact ⟨rfl, rfl⟩

/-- C10: for `Thread`, `Timer`, `Mutex`, `Condition_variable`, `Semaphore`
and `Pool`, `a == b` is true exactly when `a` and `b` are the same object;
the comparison is reflexive and symmetric, and two distinct objects whose
fields are all equal compare unequal. -/
theorem object_comparison_is_identity :
    IsObjectIdentity Thread.operator_eq ∧
    IsObjectIdentity Timer.operator_eq ∧
    IsObjectIdentity Mutex.operator_eq ∧
    IsObjectIdentity Condition_variable.operator_eq ∧
    IsObjectIdentity Semaphore.operator_eq ∧
    IsObjectIdentity Pool.operator_eq := by
  have key : ∀ (T : Type) (eq : Ptr T → Ptr T → Bool),
      (∀ a b : Ptr T, eq a b = (a.addr == b.addr)) → IsObjectIdentity eq := by
    intro T eq h
    have hiff : ∀ a b : Ptr T, eq a b = true ↔ a = b := by
      intro a b
      rw [h a b]
      cases a
      cases b
      simp
    refine ⟨hiff, ?_, ?_, ?_⟩
    · intro a
      exact (hiff a a).2 rfl
    · intro a b
      rw [h a b, h b a]
      exact Bool.beq_comm
    · intro mem a b hne _
      cases hab : eq a b with
      | false => rfl
      | true => exact absurd ((hiff a b).1 hab) hne
  exact ⟨key _ _ (fun _ _ => rfl), key _ _ (fun _ _ => rfl), key _ _ (fun _ _ => rfl),
    key _ _ (fun _ _ => rfl), key _ _ (fun _ _ => rfl), key _ _ (fun _ _ => rfl)⟩

/-- Witness for C10: two pools at the addresses 0x20000000 and 0x20000100 of
a memory in which all pools have the same fields compare unequal. -/
theorem object_comparison_is_identity_witness :
    Pool.operator_eq { addr := 0x20000000 } { addr := 0x20000100 } = false :=
  object_comparison_is_identity.2.2.2.2.2.2.2.2
    (fun _ => { name_ := some "pool", pool_addr_ := 0, items_ := 4, item_size_bytes_ := 8 })
    { addr := 0x20000000 } { addr := 0x20000100 } (by decide) rfl

/-- C11: every freshly constructed `thread::Attributes` reports the
priority `thread::priority::normal`, which is 0x80, through `get_priority`,
a null stack address through `get_stack_address` and a stack size of 0 bytes
through `get_stack_size_bytes`, each getter returning `result::ok`. -/
theorem thread_Attributes_defaults (base : Named_object)
    (prio_cell : thread.priority_t) (addr_cell size_cell : Nat) :
    (thread.Attributes.ctor base).get_priority (some prio_cell)
      = (result.ok, some thread.priority.normal) ∧
    thread.priority.normal = 0x80 ∧
    (thread.Attributes.ctor base).get_stack_address (some addr_cell)
      = (result.ok, some nullptr) ∧
    (thread.Attributes.ctor base).get_stack_size_bytes (some size_cell)
      = (result.ok, some 0) := by
  exact ⟨rfl, rfl, rfl, rfl⟩

/-- C12: every freshly constructed `timer::Attributes` reports
`get_type() = once` and every freshly constructed
`timer::Periodic_attributes` reports `get_type() = periodic`. -/
theorem timer_Attributes_type (base : Named_object) :
    (timer.Attributes.ctor base).get_type = timer.type.once ∧
    (timer.Periodic_attributes.ctor base).toAttributes.get_type = timer.type.periodic := by
  exact ⟨rfl, rfl⟩

/-- C13: every freshly constructed `mutex::Recursive_attributes` reports the
type `recursive` and reports the same protocol, robustness and priority
ceiling as a freshly constructed `mutex::Attributes`. -/
theorem mutex_Recursive_attributes_type (base base' : Named_object)
    (type_cell : mutex.type) (protocol_cell : mutex.protocol)
    (robustness_cell : mutex.robustness) (prio_cell : thread.priority_t) :
    (mutex.Recursive_attributes.ctor base).toAttributes.get_type (some type_cell)
      = (result.ok, some mutex.type.recursive) ∧
    (mutex.Recursive_attributes.ctor base).toAttributes.get_protocol (some protocol_cell)
      = (mutex.Attributes.ctor base').get_protocol (some protocol_cell) ∧
    (mutex.Recursive_attributes.ctor base).toAttributes.get_robustness (some robustness_cell)
      = (mutex.Attributes.ctor base').get_robustness (some robustness_cell) ∧
    (mutex.Recursive_attributes.ctor base).toAttributes.get_prio_ceiling (some prio_cell)
      = (mutex.Attributes.ctor base').get_prio_ceiling (some prio_cell) := by
  exact ⟨rfl, rfl, rfl, rfl⟩

/-- C14: `Pool::free(p)` returns `result::ok` and puts the block at the head
of the free list, so that the next `alloc` returns it, when `p` is a block
boundary inside the buffer, and returns `result::error_value` leaving the
pool unchanged for every other pointer; for a pool whose buffer is not at
the null address and whose free blocks all are block boundaries,
`free(alloc())` gives back the pool as it was, with its free-block count. -/
theorem Pool_free_validates (s : Pool_state) (p : Nat) :
    (Pool.is_block s p = true →
      Pool.free s p = (result.ok, { s with free_list_ := p :: s.free_list_ }) ∧
      Pool.free_count (Pool.free s p).2 = Pool.free_count s + 1 ∧
      (Pool.alloc (Pool.free s p).2).1 = p) ∧
    (Pool.is_block s p = false → Pool.free s p = (result.error_value, s)) ∧
    (0 < s.pool_addr_ → (∀ b ∈ s.free_list_, Pool.is_block s b = true) →
      (Pool.free (Pool.alloc s).2 (Pool.alloc s).1).2 = s ∧
      Pool.free_count (Pool.free (Pool.alloc s).2 (Pool.alloc s).1).2
        = Pool.free_count s) := by
  refine ⟨?_, ?_, ?_⟩
  · intro hb
    simp [Pool.free, hb, Pool.free_count, Pool.alloc]
  · intro hb
    simp [Pool.free, hb]
  · intro hpos hwf
    have key : (Pool.free (Pool.alloc s).2 (Pool.alloc s).1).2 = s := by
      obtain ⟨base, fl⟩ := s
      cases fl with
      | nil =>
        have hnb : Pool.is_block { toPool := base, free_list_ := [] } nullptr = false := by
          simp only [Pool.is_block, nullptr, decide_eq_false_iff_not]
          intro h
          have h0 : base.pool_addr_ = 0 := Nat.le_zero.mp h.1
          exact absurd h0 (Nat.pos_iff_ne_zero.mp hpos)
        simp [Pool.alloc, Pool.free, hnb]
      | cons b rest =>
        have hb : Pool.is_block { toPool := base, free_list_ := b :: rest } b = true :=
          hwf b (List.mem_cons_self b rest)
        have hb' : Pool.is_block { toPool := base, free_list_ := rest } b = true := by
          simpa [Pool.is_block] using hb
        simp [Pool.alloc, Pool.free, hb']
    exact ⟨key, by rw [key]⟩

/-- Witness for C14: a pool of 3 blocks of 8 bytes at 0x1000 with the blocks
at 0x1008 and 0x1010 free: `free(alloc())` gives the pool back. -/
theorem Pool_free_validates_witness :
    (Pool.free (Pool.alloc
        { name_ := Option.none, pool_addr_ := 0x1000, items_ := 3, item_size_bytes_ := 8,
          free_list_ := [0x1008, 0x1010] }).2
      (Pool.alloc
        { name_ := Option.none, pool_addr_ := 0x1000, items_ := 3, item_size_bytes_ := 8,
          free_list_ := [0x1008, 0x1010] }).1).2
      = { name_ := Option.none, pool_addr_ := 0x1000, items_ := 3, item_size_bytes_ := 8,
          free_list_ := [0x1008, 0x1010] } :=
  ((Pool_free_validates
      { name_ := Option.none, pool_addr_ := 0x1000, items_ := 3, item_size_bytes_ := 8,
        free_list_ := [0x1008, 0x1010] } 0x1008).2.2 (by decide) (by decide)).1

/-- C15: `Semaphore::post()` returns `result::eoverflow` and leaves the
semaphore unchanged when the post would make the counter exceed
`max_count`, and otherwise returns `result::ok` with the counter
incremented by one and `max_count` as it was. -/
theorem Semaphore_post_overflow (s : Semaphore) :
    (s.max_count_ < s.count_ + 1 → Semaphore.post s = (result.eoverflow, s)) ∧
    (s.count_ + 1 ≤ s.max_count_ →
      (Semaphore.post s).1 = result.ok ∧
      (Semaphore.post s).2.count_ = s.count_ + 1 ∧
      (Semaphore.post s).2.max_count_ = s.max_count_) := by
  constructor
  · intro h
    simp [Semaphore.post, h]
  · intro h
    have h' : ¬ (s.max_count_ < s.count_ + 1) := not_lt.mpr h
    simp [Semaphore.post, h']

/-- Witness for C15: a binary semaphore whose counter is already 1. -/
theorem Semaphore_post_overflow_witness :
    Semaphore.post { name_ := Option.none, list_ := [], count_ := 1, max_count_ := 1 }
      = (result.eoverflow,
          { name_ := Option.none, list_ := [], count_ := 1, max_count_ := 1 }) :=
  (Semaphore_post_overflow
    { name_ := Option.none, list_ := [], count_ := 1, max_count_ := 1 }).1 (by decide)

/-- C16: `Timer::stop()` returns `result::eagain`, changing nothing, when
the timer is not running, be it never started or already stopped, and
returns `result::ok`, leaving the timer stopped, when it is running, as it
is after `start`. -/
theorem Timer_stop_result (t : Timer_state) (base : Timer) (now ticks : Nat) :
    (t.state_ = timer.state.stopped → Timer.stop t = (result.eagain, t)) ∧
    (t.state_ = timer.state.running →
      Timer.stop t = (result.ok, { t with state_ := timer.state.stopped })) ∧
    Timer.stop (Timer_state.ctor base) = (result.eagain, Timer_state.ctor base) ∧
    (Timer.stop (Timer.stop t).2).1 = result.eagain ∧
    (Timer.stop (Timer.start t now ticks).2).1 = result.ok ∧
    (Timer.stop (Timer.start t now ticks).2).2.state_ = timer.state.stopped := by
  refine ⟨?_, ?_, rfl, ?_, rfl, rfl⟩
  · intro h
    simp [Timer.stop, h]
  · intro h
    simp [Timer.stop, h]
  · cases h : t.state_ <;> simp [Timer.stop, h]

/-- Witness for C16: a running periodic timer is stopped with
`result::ok`. -/
theorem Timer_stop_result_witness :
    Timer.stop
      { name_ := Option.none, func_ := 0x8000, func_args_ := 0,
        type_ := timer.type.periodic, state_ := timer.state.running,
        period_ := 10, expiry_ := 110 }
      = (result.ok,
      { name_ := Option.none, func_ := 0x8000, func_args_ := 0,
        type_ := timer.type.periodic, state_ := timer.state.stopped,
        period_ := 10, expiry_ := 110 }) :=
  (Timer_stop_result
      { name_ := Option.none, func_ := 0x8000, func_args_ := 0,
        type_ := timer.type.periodic, state_ := timer.state.running,
        period_ := 10, expiry_ := 110 }
      { name_ := Option.none, func_ := 0x8000, func_args_ := 0,
        type_ := timer.type.periodic } 100 10).2.1 rfl

/-- C17 (as stated, refuted): after the `Binary_attributes` constructor one
call `set_intial_count (2)` leaves the initial count 2 above the max count
1, and after the `Attributes` constructor the calls `set_max_count (1)`,
`set_intial_count (2)` do the same. -/
theorem semaphore_Attributes_bound_fails :
    ((semaphore.Binary_attributes.ctor { name_ := Option.none }).toAttributes.calls
        [semaphore.Setter_call.set_intial_count 2]).max_count_
      < ((semaphore.Binary_attributes.ctor { name_ := Option.none }).toAttributes.calls
        [semaphore.Setter_call.set_intial_count 2]).initial_count_ ∧
    ((semaphore.Attributes.ctor { name_ := Option.none }).calls
        [semaphore.Setter_call.set_max_count 1,
         semaphore.Setter_call.set_intial_count 2]).max_count_
      < ((semaphore.Attributes.ctor { name_ := Option.none }).calls
        [semaphore.Setter_call.set_max_count 1,
         semaphore.Setter_call.set_intial_count 2]).initial_count_ := by
  decide

/-- C17 (amended): for every `semaphore::Attributes` object obtained from a
constructor the configured initial count does not exceed the configured max
count; `set_intial_count` and `set_max_count` store their argument
unchecked, so after any sequence of such calls the configured initial count
is the argument of the last `set_intial_count` call (0 if there was none),
the configured max count is the argument of the last `set_max_count` call
(the constructor's `max_count_value`, or 1 for `Binary_attributes`, if
there was none), and the initial count does not exceed the max count
exactly when these two values are so ordered. -/
theorem semaphore_Attributes_bound_iff_last_set (base : Named_object)
    (cs : List semaphore.Setter_call) (v : semaphore.count_t)
    (a : semaphore.Attributes) :
    ((semaphore.Attributes.ctor base).initial_count_
        ≤ (semaphore.Attributes.ctor base).max_count_ ∧
      (semaphore.Binary_attributes.ctor base).initial_count_
        ≤ (semaphore.Binary_attributes.ctor base).max_count_) ∧
    (a.set_intial_count v = (result.ok, { a with initial_count_ := v }) ∧
      a.set_max_count v = (result.ok, { a with max_count_ := v })) ∧
    (((semaphore.Attributes.ctor base).calls cs).initial_count_
        = semaphore.Setter_call.last_intial_count 0 cs ∧
      ((semaphore.Attributes.ctor base).calls cs).max_count_
        = semaphore.Setter_call.last_max_count semaphore.max_count_value cs ∧
      (((semaphore.Attributes.ctor base).calls cs).initial_count_
          ≤ ((semaphore.Attributes.ctor base).calls cs).max_count_
        ↔ semaphore.Setter_call.last_intial_count 0 cs
          ≤ semaphore.Setter_call.last_max_count semaphore.max_count_value cs)) ∧
    (((semaphore.Binary_attributes.ctor base).toAttributes.calls cs).initial_count_
        = semaphore.Setter_call.last_intial_count 0 cs ∧
      ((semaphore.Binary_attributes.ctor base).toAttributes.calls cs).max_count_
        = semaphore.Setter_call.last_max_count 1 cs ∧
      (((semaphore.Binary_attributes.ctor base).toAttributes.calls cs).initial_count_
          ≤ ((semaphore.Binary_attributes.ctor base).toAttributes.calls cs).max_count_
        ↔ semaphore.Setter_call.last_intial_count 0 cs
          ≤ semaphore.Setter_call.last_max_count 1 cs)) := by
  have hA := calls_store_last cs (semaphore.Attributes.ctor base)
  have hB := calls_store_last cs (semaphore.Binary_attributes.ctor base).toAttributes
  have hA1 : ((semaphore.Attributes.ctor base).calls cs).initial_count_
      = semaphore.Setter_call.last_intial_count 0 cs := hA.1
  have hA2 : ((semaphore.Attributes.ctor base).calls cs).max_count_
      = semaphore.Setter_call.last_max_count semaphore.max_count_value cs := hA.2.1
  have hB1 : ((semaphore.Binary_attributes.ctor base).toAttributes.calls cs).initial_count_
      = semaphore.Setter_call.last_intial_count 0 cs := hB.1
  have hB2 : ((semaphore.Binary_attributes.ctor base).toAttributes.calls cs).max_count_
      = semaphore.Setter_call.last_max_count 1 cs := hB.2.1
  refine ⟨⟨?_, ?_⟩, ⟨rfl, rfl⟩, ⟨hA1, hA2, ?_⟩, ⟨hB1, hB2, ?_⟩⟩
  · show (0 : Int) ≤ semaphore.max_count_value
    decide
  · show (0 : Int) ≤ 1
    decide
  · rw [hA1, hA2]
  · rw [hB1, hB2]

/-- Witness for C17 (amended): after the `Binary_attributes` constructor the
calls `set_intial_count (5)`, `set_max_count (10)` end with the initial
count 5 within the max count 10, although 5 exceeded the max count 1 in
between. -/
theorem semaphore_Attributes_bound_iff_last_set_witness :
    ((semaphore.Binary_attributes.ctor { name_ := some "sem" }).toAttributes.calls
        [semaphore.Setter_call.set_intial_count 5,
         semaphore.Setter_call.set_max_count 10]).initial_count_
      ≤ ((semaphore.Binary_attributes.ctor { name_ := some "sem" }).toAttributes.calls
        [semaphore.Setter_call.set_intial_count 5,
         semaphore.Setter_call.set_max_count 10]).max_count_ :=
  (semaphore_Attributes_bound_iff_last_set { name_ := some "sem" }
    [semaphore.Setter_call.set_intial_count 5, semaphore.Setter_call.set_max_count 10]
    0 (semaphore.Attributes.ctor { name_ := some "sem" })).2.2.2.2.2.2 (by decide)

/-- C18: for a 32-bit unsigned argument `m`, `ticks_cast(m)` equals the
ceiling of `m / 1000` exactly when `m ≤ 4293967`, which is
`(2^32 - 1 - 999999) / 1000`; for every larger `m` the intermediate
`m * 1000 + 999999` does not fit in 32 bits and the result is strictly
smaller than the ceiling, and `ticks_cast(4293968) = 0`. -/
theorem ticks_cast_u32_exact_range (m : Nat) (hm : m < 2 ^ 32) :
    (Systick_clock.ticks_cast 32 m = ⌈((m : ℚ) / 1000)⌉₊ ↔ m ≤ 4293967) ∧
    (4293967 < m →
      2 ^ 32 ≤ m * 1000 + 999999 ∧
      Systick_clock.ticks_cast 32 m < ⌈((m : ℚ) / 1000)⌉₊) ∧
    Systick_clock.ticks_cast 32 4293968 = 0 ∧
    (2 ^ 32 - 1 - 999999) / 1000 = 4293967 := by
  have h32 : (2 : Nat) ^ 32 = 4294967296 := by norm_num
  rw [h32] at hm
  have hlt : 4293967 < m → Systick_clock.ticks_cast 32 m < (m + 999) / 1000 := by
    intro hgt
    rw [ticks_cast_u32]
    have hy : (m * 1000 % 4294967296 + 999999) % 4294967296 < 4294967296 :=
      Nat.mod_lt _ (by norm_num)
    by_cases hsmall : m ≤ 4294000
    · have hx : m * 1000 % 4294967296 = m * 1000 := Nat.mod_eq_of_lt (by omega)
      have hwrap : (m * 1000 + 999999) % 4294967296 = m * 1000 + 999999 - 4294967296 := by
        rw [Nat.mod_eq_sub_mod (by omega)]
        exact Nat.mod_eq_of_lt (by omega)
      rw [hx, hwrap]
      have hzero : (m * 1000 + 999999 - 4294967296) / 1000000 = 0 :=
        Nat.div_eq_of_lt (by omega)
      rw [hzero]
      omega
    · generalize (m * 1000 % 4294967296 + 999999) % 4294967296 = y at hy
      have hr : y / 1000000 % 4294967296 = y / 1000000 := Nat.mod_eq_of_lt (by omega)
      rw [hr]
      omega
  have heq : m ≤ 4293967 → Systick_clock.ticks_cast 32 m = (m + 999) / 1000 := by
    intro hle
    rw [ticks_cast_no_overflow 32 m (by omega) (by omega)]
    omega
  rw [ceil_div_thousand, h32]
  refine ⟨⟨?_, heq⟩, ?_, by decide, by norm_num⟩
  · intro h
    by_contra hgt
    have := hlt (by omega)
    omega
  · intro hgt
    exact ⟨by omega, hlt hgt⟩

/-- Witness for C18: the largest 32-bit argument, 4294967295, gives fewer
ticks than the ceiling 4294968. -/
theorem ticks_cast_u32_exact_range_witness :
    Systick_clock.ticks_cast 32 4294967295 < ⌈(((4294967295 : Nat) : ℚ) / 1000)⌉₊ :=
  ((ticks_cast_u32_exact_range 4294967295 (by decide)).2.1 (by decide)).2

/-- C19: on the overflow-free range `ticks_cast` is monotone, and the ticks
of two arguments differ by at most the ceiling of a thousandth of the
arguments' difference. -/
theorem ticks_cast_monotone (w m1 m2 : Nat) (hle : m1 ≤ m2)
    (hrep : m2 * 1000 + 999999 < 2 ^ w)
    (hq : (m2 * 1000 + 999999) / 1000000 < 2 ^ 32) :
    Systick_clock.ticks_cast w m1 ≤ Systick_clock.ticks_cast w m2 ∧
    Systick_clock.ticks_cast w m2 - Systick_clock.ticks_cast w m1
      ≤ ⌈(((m2 - m1 : Nat) : ℚ) / 1000)⌉₊ := by
  have hrep1 : m1 * 1000 + 999999 < 2 ^ w := by omega
  have hq1 : (m1 * 1000 + 999999) / 1000000 < 2 ^ 32 := by
    have : (m1 * 1000 + 999999) / 1000000 ≤ (m2 * 1000 + 999999) / 1000000 := by omega
    omega
  rw [ticks_cast_no_overflow w m1 hrep1 hq1, ticks_cast_no_overflow w m2 hrep hq,
    ceil_div_thousand]
  constructor <;> omega

/-- Witness for C19: 64-bit arguments 999 and 2001 give 1 and 3 ticks. -/
theorem ticks_cast_monotone_witness :
    Systick_clock.ticks_cast 64 999 ≤ Systick_clock.ticks_cast 64 2001 ∧
    Systick_clock.ticks_cast 64 2001 - Systick_clock.ticks_cast 64 999
      ≤ ⌈(((2001 - 999 : Nat) : ℚ) / 1000)⌉₊ :=
  ticks_cast_monotone 64 999 2001 (by decide) (by decide) (by decide)

/-- C20: the named priorities are strictly increasing, none < idle < low <
below_normal < normal < above_normal < high < realtime < max, and an 8-bit
priority `p` lies outside the range from idle to max exactly when it is
none, that is 0. -/
theorem priorities_strictly_increasing (p : Nat) (hp : p < 256) :
    (thread.priority.none < thread.priority.idle ∧
     thread.priority.idle < thread.priority.low ∧
     thread.priority.low < thread.priority.below_normal ∧
     thread.priority.below_normal < thread.priority.normal ∧
     thread.priority.normal < thread.priority.above_normal ∧
     thread.priority.above_normal < thread.priority.high ∧
     thread.priority.high < thread.priority.realtime ∧
     thread.priority.realtime < thread.priority.max) ∧
    (¬ (thread.priority.idle ≤ p ∧ p ≤ thread.priority.max)
      ↔ p = thread.priority.none) ∧
    (¬ (thread.priority.idle ≤ p ∧ p ≤ thread.priority.max) ↔ p = 0) := by
  have key : ¬ ((1 : Nat) ≤ p ∧ p ≤ 255) ↔ p = 0 := by
    constructor
    · intro h
      by_contra hne
      exact h ⟨Nat.pos_of_ne_zero hne, by omega⟩
    · intro h0 hrange
      omega
  exact ⟨by decide, key, key⟩

/-- Witness for C20: priority 0 is outside the range, being none. -/
theorem priorities_strictly_increasing_witness :
    ¬ (thread.priority.idle ≤ 0 ∧ 0 ≤ thread.priority.max) :=
  (priorities_strictly_increasing 0 (by decide)).2.2.2 rfl

/-- C21: set-then-get round trip of every attribute field: for each field of
`thread::Attributes`, `mutex::Attributes`, `semaphore::Attributes`,
`pool::Attributes` and `timer::Attributes`, and for all values `v1`, `v2`,
the getter (given a non-null output cell where it has one) yields `v1` after
the setter was called with `v1`, and yields `v2` after the setter was called
with `v1` and then with `v2`. -/
theorem attribute_set_get_round_trip :
    (∀ (a : thread.Attributes) (v1 v2 cell : Nat),
      (a.set_stack_address v1).2.get_stack_address (some cell) = (result.ok, some v1) ∧
      ((a.set_stack_address v1).2.set_stack_address v2).2.get_stack_address (some cell)
        = (result.ok, some v2)) ∧
    (∀ (a : thread.Attributes) (v1 v2 cell : Nat),
      (a.set_stack_size_bytes v1).2.get_stack_size_bytes (some cell)
        = (result.ok, some v1) ∧
      ((a.set_stack_size_bytes v1).2.set_stack_size_bytes v2).2.get_stack_size_bytes
        (some cell) = (result.ok, some v2)) ∧
    (∀ (a : thread.Attributes) (v1 v2 cell : thread.priority_t),
      (a.set_priority v1).2.get_priority (some cell) = (result.ok, some v1) ∧
      ((a.set_priority v1).2.set_priority v2).2.get_priority (some cell)
        = (result.ok, some v2)) ∧
    (∀ (a : mutex.Attributes) (v1 v2 cell : thread.priority_t),
      (a.set_prio_ceiling v1).2.get_prio_ceiling (some cell) = (result.ok, some v1) ∧
      ((a.set_prio_ceiling v1).2.set_prio_ceiling v2).2.get_prio_ceiling (some cell)
        = (result.ok, some v2)) ∧
    (∀ (a : mutex.Attributes) (v1 v2 cell : mutex.protocol),
      (a.set_protocol v1).2.get_protocol (some cell) = (result.ok, some v1) ∧
      ((a.set_protocol v1).2.set_protocol v2).2.get_protocol (some cell)
        = (result.ok, some v2)) ∧
    (∀ (a : mutex.Attributes) (v1 v2 cell : mutex.robustness),
      (a.set_robustness v1).2.get_robustness (some cell) = (result.ok, some v1) ∧
      ((a.set_robustness v1).2.set_robustness v2).2.get_robustness (some cell)
        = (result.ok, some v2)) ∧
    (∀ (a : mutex.Attributes) (v1 v2 cell : mutex.type),
      (a.set_type v1).2.get_type (some cell) = (result.ok, some v1) ∧
      ((a.set_type v1).2.set_type v2).2.get_type (some cell) = (result.ok, some v2)) ∧
    (∀ (a : semaphore.Attributes) (v1 v2 cell : semaphore.count_t),
      (a.set_intial_count v1).2.get_intial_count (some cell) = (result.ok, some v1) ∧
      ((a.set_intial_count v1).2.set_intial_count v2).2.get_intial_count (some cell)
        = (result.ok, some v2)) ∧
    (∀ (a : semaphore.Attributes) (v1 v2 cell : semaphore.count_t),
      (a.set_max_count v1).2.get_max_count (some cell) = (result.ok, some v1) ∧
      ((a.set_max_count v1).2.set_max_count v2).2.get_max_count (some cell)
        = (result.ok, some v2)) ∧
    (∀ (a : pool.Attributes) (v1 v2 : Nat),
      (a.set_pool_addr v1).get_pool_addr = v1 ∧
      ((a.set_pool_addr v1).set_pool_addr v2).get_pool_addr = v2) ∧
    (∀ (a : timer.Attributes) (v1 v2 : timer.type),
      (a.set_type v1).get_type = v1 ∧
      ((a.set_type v1).set_type v2).get_type = v2) := by
  refine ⟨?_, ?_, ?_, ?_, ?_, ?_, ?_, ?_, ?_, ?_, ?_⟩ <;> intros <;> exact ⟨rfl, rfl⟩

/-- C22: each attribute setter changes only its own field: for
`thread::Attributes`, `mutex::Attributes` and `semaphore::Attributes`, after
`set_X (v)` every getter other than `get_X` returns, for any output pointer,
what it returned before the call, and `get_name` returns the same name. -/
theorem attribute_setters_frame :
    (∀ (a : thread.Attributes) (v : Nat) (size_out : Option Nat)
        (prio_out : Option thread.priority_t),
      (a.set_stack_address v).2.get_stack_size_bytes size_out
        = a.get_stack_size_bytes size_out ∧
      (a.set_stack_address v).2.get_priority prio_out = a.get_priority prio_out ∧
      (a.set_stack_address v).2.get_name = a.get_name) ∧
    (∀ (a : thread.Attributes) (v : Nat) (addr_out : Option Nat)
        (prio_out : Option thread.priority_t),
      (a.set_stack_size_bytes v).2.get_stack_address addr_out
        = a.get_stack_address addr_out ∧
      (a.set_stack_size_bytes v).2.get_priority prio_out = a.get_priority prio_out ∧
      (a.set_stack_size_bytes v).2.get_name = a.get_name) ∧
    (∀ (a : thread.Attributes) (v : thread.priority_t) (addr_out size_out : Option Nat),
      (a.set_priority v).2.get_stack_address addr_out = a.get_stack_address addr_out ∧
      (a.set_priority v).2.get_stack_size_bytes size_out
        = a.get_stack_size_bytes size_out ∧
      (a.set_priority v).2.get_name = a.get_name) ∧
    (∀ (a : mutex.Attributes) (v : thread.priority_t) (protocol_out : Option mutex.protocol)
        (robustness_out : Option mutex.robustness) (type_out : Option mutex.type),
      (a.set_prio_ceiling v).2.get_protocol protocol_out = a.get_protocol protocol_out ∧
      (a.set_prio_ceiling v).2.get_robustness robustness_out
        = a.get_robustness robustness_out ∧
      (a.set_prio_ceiling v).2.get_type type_out = a.get_type type_out ∧
      (a.set_prio_ceiling v).2.get_name = a.get_name) ∧
    (∀ (a : mutex.Attributes) (v : mutex.protocol) (prio_out : Option thread.priority_t)
        (robustness_out : Option mutex.robustness) (type_out : Option mutex.type),
      (a.set_protocol v).2.get_prio_ceiling prio_out = a.get_prio_ceiling prio_out ∧
      (a.set_protocol v).2.get_robustness robustness_out
        = a.get_robustness robustness_out ∧
      (a.set_protocol v).2.get_type type_out = a.get_type type_out ∧
      (a.set_protocol v).2.get_name = a.get_name) ∧
    (∀ (a : mutex.Attributes) (v : mutex.robustness) (prio_out : Option thread.priority_t)
        (protocol_out : Option mutex.protocol) (type_out : Option mutex.type),
      (a.set_robustness v).2.get_prio_ceiling prio_out = a.get_prio_ceiling prio_out ∧
      (a.set_robustness v).2.get_protocol protocol_out = a.get_protocol protocol_out ∧
      (a.set_robustness v).2.get_type type_out = a.get_type type_out ∧
      (a.set_robustness v).2.get_name = a.get_name) ∧
    (∀ (a : mutex.Attributes) (v : mutex.type) (prio_out : Option thread.priority_t)
        (protocol_out : Option mutex.protocol) (robustness_out : Option mutex.robustness),
      (a.set_type v).2.get_prio_ceiling prio_out = a.get_prio_ceiling prio_out ∧
      (a.set_type v).2.get_protocol protocol_out = a.get_protocol protocol_out ∧
      (a.set_type v).2.get_robustness robustness_out = a.get_robustness robustness_out ∧
      (a.set_type v).2.get_name = a.get_name) ∧
    (∀ (a : semaphore.Attributes) (v : semaphore.count_t)
        (max_out : Option semaphore.count_t),
      (a.set_intial_count v).2.get_max_count max_out = a.get_max_count max_out ∧
      (a.set_intial_count v).2.get_name = a.get_name) ∧
    (∀ (a : semaphore.Attributes) (v : semaphore.count_t)
        (initial_out : Option semaphore.count_t),
      (a.set_max_count v).2.get_intial_count initial_out
        = a.get_intial_count initial_out ∧
      (a.set_max_count v).2.get_name = a.get_name) := by
  refine ⟨?_, ?_, ?_, ?_, ?_, ?_, ?_, ?_, ?_⟩ <;> intros <;>
    first
      | exact ⟨rfl, rfl⟩
      | exact ⟨rfl, rfl, rfl⟩
      | exact ⟨rfl, rfl, rfl, rfl⟩

/-- C23: every result-returning getter and setter of `thread::Attributes`,
`mutex::Attributes` and `semaphore::Attributes` returns `result::ok` for
every input; the setters store what they are given without validating it,
priority 0 (none) and a negative semaphore count included; and a getter
called with a null output pointer writes nothing and still returns
`result::ok` (getters are `const`: they yield no changed attributes). -/
theorem attribute_accessors_never_fail :
    (∀ (a : thread.Attributes) (v : Nat) (out : Option Nat),
      (a.set_stack_address v).1 = result.ok ∧ (a.get_stack_address out).1 = result.ok ∧
      (a.set_stack_size_bytes v).1 = result.ok ∧
      (a.get_stack_size_bytes out).1 = result.ok ∧
      (a.set_priority v).1 = result.ok ∧ (a.get_priority out).1 = result.ok) ∧
    (∀ (a : mutex.Attributes) (v : thread.priority_t) (p : mutex.protocol)
        (r : mutex.robustness) (t : mutex.type) (prio_out : Option thread.priority_t)
        (protocol_out : Option mutex.protocol) (robustness_out : Option mutex.robustness)
        (type_out : Option mutex.type),
      (a.set_prio_ceiling v).1 = result.ok ∧ (a.get_prio_ceiling prio_out).1 = result.ok ∧
      (a.set_protocol p).1 = result.ok ∧ (a.get_protocol protocol_out).1 = result.ok ∧
      (a.set_robustness r).1 = result.ok ∧
      (a.get_robustness robustness_out).1 = result.ok ∧
      (a.set_type t).1 = result.ok ∧ (a.get_type type_out).1 = result.ok) ∧
    (∀ (a : semaphore.Attributes) (v : semaphore.count_t)
        (out : Option semaphore.count_t),
      (a.set_intial_count v).1 = result.ok ∧ (a.get_intial_count out).1 = result.ok ∧
      (a.set_max_count v).1 = result.ok ∧ (a.get_max_count out).1 = result.ok) ∧
    (∀ (a : thread.Attributes),
      a.set_priority thread.priority.none
        = (result.ok, { a with priority_ := thread.priority.none }) ∧
      thread.priority.none = 0) ∧
    (∀ (a : mutex.Attributes),
      a.set_prio_ceiling thread.priority.none
        = (result.ok, { a with priority_ceiling_ := thread.priority.none })) ∧
    (∀ (a : semaphore.Attributes) (v : semaphore.count_t),
      a.set_intial_count v = (result.ok, { a with initial_count_ := v }) ∧
      a.set_max_count v = (result.ok, { a with max_count_ := v })) ∧
    (∀ (a : semaphore.Attributes),
      a.set_intial_count (-1) = (result.ok, { a with initial_count_ := -1 }) ∧
      (-1 : semaphore.count_t) < 0) ∧
    (∀ (a : thread.Attributes),
      a.get_stack_address Option.none = (result.ok, Option.none) ∧
      a.get_stack_size_bytes Option.none = (result.ok, Option.none) ∧
      a.get_priority Option.none = (result.ok, Option.none)) ∧
    (∀ (a : mutex.Attributes),
      a.get_prio_ceiling Option.none = (result.ok, Option.none) ∧
      a.get_protocol Option.none = (result.ok, Option.none) ∧
      a.get_robustness Option.none = (result.ok, Option.none) ∧
      a.get_type Option.none = (result.ok, Option.none)) ∧
    (∀ (a : semaphore.Attributes),
      a.get_intial_count Option.none = (result.ok, Option.none) ∧
      a.get_max_count Option.none = (result.ok, Option.none)) := by
  refine ⟨?_, ?_, ?_, ?_, ?_, ?_, ?_, ?_, ?_, ?_⟩
  · intro a v out
    cases out <;> exact ⟨rfl, rfl, rfl, rfl, rfl, rfl⟩
  · intro a v p r t prio_out protocol_out robustness_out type_out
    cases prio_out <;> cases protocol_out <;> cases robustness_out <;> cases type_out <;>
      exact ⟨rfl, rfl, rfl, rfl, rfl, rfl, rfl, rfl⟩
  · intro a v out
    cases out <;> exact ⟨rfl, rfl, rfl, rfl⟩
  · intro a
    exact ⟨rfl, rfl⟩
  · intro a
    rfl
  · intro a v
    exact ⟨rfl, rfl⟩
  · intro a
    exact ⟨rfl, by decide⟩
  · intro a
    exact ⟨rfl, rfl, rfl⟩
  · intro a
    exact ⟨rfl, rfl, rfl, rfl⟩
  · intro a
    exact ⟨rfl, rfl⟩

end os.cmsis.rtos
